import Mathlib

/-!
Shallow embedding of the zlate freemium license subsystem
(`src/utils/constants.js`, `src/utils/license.js`, `src/utils/featureGate.js`,
`src/utils/history.js`).

Times are modelled as integer milliseconds since the epoch (the JS code
compares `Date` objects, which compare by their millisecond value).
The browser key-value store is modelled as explicit record-passing; storage
writes are modelled as always succeeding (the store is an external
collaborator treated as reliable).  Remote HTTP calls are modelled by an
explicit outcome parameter: the network either rejects the promise
(`networkError`), answers with a non-2xx response (`httpError`), or answers
2xx with a parsed JSON body (`respOk`).  Each operation additionally returns
a `Bool` recording whether a network request was issued.
-/

namespace Zlate

/-! ## Constants (`constants.js`) -/

def FREE_PROVIDERS : List String := ["gemini", "deepseek"]

def PREMIUM_PROVIDERS : List String := ["openai", "claude", "groq"]

def FREE_TONES : List String := ["neutral"]

def PREMIUM_TONES : List String :=
  ["formal", "casual", "friendly", "professional", "academic", "simple"]

def FREE_HISTORY_LIMIT : Nat := 5

def CACHE_DURATION : Int := 24 * 60 * 60 * 1000

def GRACE_PERIOD : Int := 7 * 24 * 60 * 60 * 1000

structure ProviderEntry where
  id : String
  name : String
  hint : String
deriving DecidableEq

def PROVIDERS : List ProviderEntry :=
  [ { id := "gemini", name := "Gemini", hint := "Get from Google AI Studio" },
    { id := "openai", name := "OpenAI", hint := "Get from platform.openai.com" },
    { id := "deepseek", name := "DeepSeek", hint := "Get from platform.deepseek.com" },
    { id := "claude", name := "Claude", hint := "Get from console.anthropic.com" },
    { id := "groq", name := "Groq (Free)", hint := "Get from console.groq.com" } ]

structure ToneEntry where
  id : String
  name : String
deriving DecidableEq

def TONES : List ToneEntry :=
  [ { id := "neutral", name := "Neutral" },
    { id := "formal", name := "Formal" },
    { id := "casual", name := "Casual" },
    { id := "friendly", name := "Friendly" },
    { id := "professional", name := "Professional" },
    { id := "academic", name := "Academic" },
    { id := "simple", name := "Simple (Easy to understand)" } ]

/-! ## License data model (`license.js`) -/

/-- The `license` object of a successful validation response. -/
structure License where
  email : Option String
  expiresAt : Option Int
  plan : Option String
  createdAt : Option Int
deriving DecidableEq

/-- The persisted `LicenseStatus` record.  `validatedAt`/`cachedUntil` are
`Option` because the raw stored record may lack them (the code guards with
JS truthiness checks before using them). -/
structure LicenseStatus where
  isPremium : Bool
  licenseKey : Option String
  email : Option String
  expiresAt : Option Int
  validatedAt : Option Int
  cachedUntil : Option Int
deriving DecidableEq

/-- Result object of `validateLicense`. -/
structure ValidationResult where
  valid : Bool
  license : Option License
  error : Option String
deriving DecidableEq

/-- Outcome of the `fetch` to `POST /api/license/validate`. -/
inductive FetchOutcome where
  | networkError (msg : String)
  | httpError (status : Nat) (bodyError : Option String)
  | respOk (valid : Bool) (license : Option License) (error : Option String)
deriving DecidableEq

/-- Executable model of `String.prototype.trim`: strip leading and trailing
whitespace (defined over the character list so that concrete instances
reduce in the kernel). -/
def jsTrim (s : String) : String :=
  ⟨(((s.data.dropWhile Char.isWhitespace).reverse.dropWhile Char.isWhitespace).reverse)⟩

/-- `errorData.error || "Validation failed with status N"` for a non-2xx
response (`errorData` is `{}` when the body fails to parse). -/
def validationHttpErrorMsg (status : Nat) (bodyError : Option String) : String :=
  match bodyError with
  | some e => if e = "" then "Validation failed with status " ++ toString status else e
  | none => "Validation failed with status " ++ toString status

/-- The `try` block of `validateLicense`: the `fetch` either rejects (the
exception propagates to the `catch`) or yields a response that is mapped to
a `ValidationResult`. -/
def validateFetchBody (outcome : FetchOutcome) : Except String ValidationResult :=
  match outcome with
  | .networkError msg => Except.error msg
  | .httpError status bodyError =>
      Except.ok { valid := false, license := none,
                  error := some (validationHttpErrorMsg status bodyError) }
  | .respOk v lic err => Except.ok { valid := v, license := lic, error := err }

/-- `validateLicense(licenseKey)` (license.js lines 56-93).  The second
component records whether the `fetch` was issued.  Every path returns a
structured result: the guard returns early for a blank key, and the
`catch` converts a rejected `fetch` into `valid=false` with the underlying
message (`error.message || "Network error during validation"`). -/
def validateLicense (licenseKey : String) (outcome : FetchOutcome) :
    ValidationResult × Bool :=
  if jsTrim licenseKey = "" then
    ({ valid := false, license := none, error := some "License key is required" }, false)
  else
    match validateFetchBody outcome with
    | Except.ok r => (r, true)
    | Except.error msg =>
        ({ valid := false, license := none,
           error := some (if msg = "" then "Network error during validation" else msg) },
         true)

/-- The two license storage slots read by `_getStoredLicenseData`. -/
structure StoredData where
  licenseKey : Option String
  licenseStatus : Option LicenseStatus
deriving DecidableEq

/-- `result[key] || null` / JS truthiness on the stored key: absent and
empty-string keys are both falsy. -/
def normStoredKey (v : Option String) : Option String :=
  match v with
  | none => none
  | some s => if s = "" then none else some s

/-- `_getFreemiumStatus()` at time `now`. -/
def freemiumStatus (now : Int) : LicenseStatus :=
  { isPremium := false, licenseKey := none, email := none, expiresAt := none,
    validatedAt := some now, cachedUntil := some now }

/-- `_isCacheValid(status)`: strict `new Date(status.cachedUntil) > new Date()`. -/
def isCacheValid (status : LicenseStatus) (now : Int) : Bool :=
  match status.cachedUntil with
  | none => false
  | some c => now < c

/-- `_isWithinGracePeriod(status)`: `Date.now() < validatedAt + GRACE_PERIOD`. -/
def isWithinGracePeriod (status : LicenseStatus) (now : Int) : Bool :=
  match status.validatedAt with
  | none => false
  | some v => now < v + GRACE_PERIOD

/-- `storeLicenseStatus(status)`: one atomic write of both storage slots
(`licenseKey := status.licenseKey`, `licenseStatus := status`). -/
def storeLicenseStatus (status : LicenseStatus) : StoredData :=
  { licenseKey := status.licenseKey, licenseStatus := some status }

/-- The cache-expired tail of `getLicenseStatus` (lines 117-155): the `try`
block awaits the validator, and the `catch` applies the grace-period check.
The validator is passed as an `Except`-valued function so that the `catch`
branch of the source is embedded faithfully; the real validator never
produces `Except.error` (see `validateLicenseCall_isOk`). -/
def revalidate (validator : String → Except String (ValidationResult × Bool))
    (key : String) (stored : StoredData) (now : Int) :
    LicenseStatus × StoredData × Bool :=
  match validator key with
  | Except.ok (vr, net) =>
    match vr.valid, vr.license with
    | true, some lic =>
      let newStatus : LicenseStatus :=
        { isPremium := true, licenseKey := some key, email := lic.email,
          expiresAt := lic.expiresAt, validatedAt := some now,
          cachedUntil := some (now + CACHE_DURATION) }
      (newStatus, storeLicenseStatus newStatus, net)
    | _, _ =>
      let f := freemiumStatus now
      (f, storeLicenseStatus f, net)
  | Except.error _ =>
    match stored.licenseStatus with
    | some st =>
      if st.isPremium && isWithinGracePeriod st now then (st, stored, true)
      else (freemiumStatus now, stored, true)
    | none => (freemiumStatus now, stored, true)

/-- `getLicenseStatus()` parametrised over the validator.  Returns the
status handed back to the caller, the storage contents afterwards, and
whether a network request was issued. -/
def getLicenseStatusWith (validator : String → Except String (ValidationResult × Bool))
    (stored : StoredData) (now : Int) : LicenseStatus × StoredData × Bool :=
  match normStoredKey stored.licenseKey with
  | none => (freemiumStatus now, stored, false)
  | some key =>
    match stored.licenseStatus with
    | some st =>
      if isCacheValid st now then (st, stored, false)
      else revalidate validator key stored now
    | none => revalidate validator key stored now

/-- The call `await this.validateLicense(key)` inside `getLicenseStatus`:
`validateLicense` is an `async` function whose body catches every
exception, so the awaited promise always resolves. -/
def validateLicenseCall (outcome : FetchOutcome) (key : String) :
    Except String (ValidationResult × Bool) :=
  Except.ok (validateLicense key outcome)

/-- `getLicenseStatus()` (license.js lines 100-155) with the real validator. -/
def getLicenseStatus (stored : StoredData) (outcome : FetchOutcome) (now : Int) :
    LicenseStatus × StoredData × Bool :=
  getLicenseStatusWith (validateLicenseCall outcome) stored now

theorem validateLicenseCall_isOk (outcome : FetchOutcome) (key : String) :
    (validateLicenseCall outcome key).isOk := rfl

example : (validateLicense "" (.networkError "x")).1.valid = false := by decide

example : (validateLicense " " (.respOk true none none)).2 = false := by decide

example : (validateLicense "K" (.networkError "boom")).1.error = some "boom" := by decide

/-! ## Expiration warning (`checkExpirationWarning`, license.js lines 329-343) -/

def MS_PER_DAY : Int := 1000 * 60 * 60 * 24

/-- `Math.ceil (a / b)` for integer `a` and positive integer `b`. -/
def ceilDivInt (a b : Int) : Int := -((-a).fdiv b)

structure ExpirationWarning where
  shouldShow : Bool
  daysUntilExpiry : Option Int
deriving DecidableEq

/-- `checkExpirationWarning(licenseStatus, currentDate)`: no warning for a
missing status, a non-premium status, or a missing `expiresAt`; otherwise
`daysUntilExpiry = ceil((expiresAt - now) / 1 day)` and
`shouldShow = daysUntilExpiry <= 7 && daysUntilExpiry > 0`. -/
def checkExpirationWarning (licenseStatus : Option LicenseStatus) (now : Int) :
    ExpirationWarning :=
  match licenseStatus with
  | none => { shouldShow := false, daysUntilExpiry := none }
  | some st =>
    if !st.isPremium then { shouldShow := false, daysUntilExpiry := none }
    else
      match st.expiresAt with
      | none => { shouldShow := false, daysUntilExpiry := none }
      | some exp =>
        let d := ceilDivInt (exp - now) MS_PER_DAY
        { shouldShow := decide (d ≤ 7) && decide (0 < d), daysUntilExpiry := some d }

example : ceilDivInt 1 2 = 1 := by decide

example : ceilDivInt (-1) 2 = 0 := by decide

example : ceilDivInt 0 2 = 0 := by decide

example : ceilDivInt 4 2 = 2 := by decide

/-! ## Feature gate (`featureGate.js`) -/

structure ProviderInfo where
  id : String
  name : String
  hint : String
  available : Bool
  isPremium : Bool
deriving DecidableEq

structure ToneInfo where
  id : String
  name : String
  available : Bool
  isPremium : Bool
deriving DecidableEq

/-- `getAvailableProviders(isPremium)`: map the full catalog, flagging
availability without removing entries. -/
def getAvailableProviders (premium : Bool) : List ProviderInfo :=
  PROVIDERS.map fun p =>
    { id := p.id, name := p.name, hint := p.hint,
      available := premium || FREE_PROVIDERS.contains p.id,
      isPremium := PREMIUM_PROVIDERS.contains p.id }

/-- `getAvailableTones(isPremium)`. -/
def getAvailableTones (premium : Bool) : List ToneInfo :=
  TONES.map fun t =>
    { id := t.id, name := t.name,
      available := premium || FREE_TONES.contains t.id,
      isPremium := PREMIUM_TONES.contains t.id }

/-- `isProviderAvailable(providerId, isPremium)`. -/
def isProviderAvailable (providerId : String) (premium : Bool) : Bool :=
  premium || FREE_PROVIDERS.contains providerId

/-- `isToneAvailable(toneId, isPremium)`. -/
def isToneAvailable (toneId : String) (premium : Bool) : Bool :=
  premium || FREE_TONES.contains toneId

/-! ## History store (`history.js`) -/

structure HistoryItem where
  id : String
  original : String
  translation : String
  sourceLang : String
  targetLang : String
  engine : String
  tone : String
  timestamp : Int
  synced : Bool
deriving DecidableEq

/-- Argument of `addTranslation`; `tone` is optional. -/
structure AddTranslationInput where
  original : String
  translation : String
  sourceLang : String
  targetLang : String
  engine : String
  tone : Option String
deriving DecidableEq

/-- The history item built at the top of `addTranslation`: generated `id`
and `timestamp` are parameters of the model; `tone := item.tone || "neutral"`
(JS `||`: absent and empty-string tones are both falsy). -/
def mkHistoryItem (input : AddTranslationInput) (id : String) (timestamp : Int) :
    HistoryItem :=
  { id := id, original := input.original, translation := input.translation,
    sourceLang := input.sourceLang, targetLang := input.targetLang,
    engine := input.engine,
    tone := match input.tone with
            | some t => if t = "" then "neutral" else t
            | none => "neutral",
    timestamp := timestamp, synced := false }

/-- `_addToHistory(item, history, isPremium)` (history.js): prepend the item;
for freemium users truncate to `FREE_HISTORY_LIMIT` when the limit is
exceeded. -/
def addToHistory (item : HistoryItem) (history : List HistoryItem)
    (isPremium : Bool) : List HistoryItem :=
  let updatedHistory := item :: history
  if !isPremium then
    if updatedHistory.length > FREE_HISTORY_LIMIT then
      updatedHistory.take FREE_HISTORY_LIMIT
    else updatedHistory
  else updatedHistory

/-- `addTranslation(item)`: build the history item and store the updated
collection; returns the stored item and the new collection. -/
def addTranslation (input : AddTranslationInput) (id : String) (timestamp : Int)
    (history : List HistoryItem) (isPremium : Bool) :
    HistoryItem × List HistoryItem :=
  let historyItem := mkHistoryItem input id timestamp
  (historyItem, addToHistory historyItem history isPremium)

/-- A sequence of `_addToHistory` inserts starting from the empty
collection, under a fixed trust level. -/
def appendAll (items : List HistoryItem) (isPremium : Bool) : List HistoryItem :=
  items.foldl (fun h i => addToHistory i h isPremium) []

/-! ## Cloud sync (`syncToCloud` / `fetchFromCloud`, history.js) -/

/-- The storage slots read and written by the history manager's cloud
operations. -/
structure HistState where
  history : List HistoryItem
  pendingSyncItems : List HistoryItem
  licenseStatus : Option LicenseStatus
  licenseKey : Option String
deriving DecidableEq

/-- `_isPremium()`: `status?.isPremium === true` on the stored record. -/
def histIsPremium (st : HistState) : Bool :=
  match st.licenseStatus with
  | some s => s.isPremium
  | none => false

/-- `_getLicenseKey()`: `result[key] || null`. -/
def histLicenseKey (st : HistState) : Option String :=
  normStoredKey st.licenseKey

structure SyncResult where
  success : Bool
  syncedCount : Nat
  error : Option String
deriving DecidableEq

/-- Outcome of the `fetch` to `POST /api/history/sync`. -/
inductive SyncOutcome where
  | networkError (msg : String)
  | httpError (status : Nat) (bodyError : Option String)
  | respOk (success : Bool) (syncedCount : Nat) (error : Option String)
deriving DecidableEq

/-- `errorData.error || "Sync failed with status N"`. -/
def syncHttpErrorMsg (status : Nat) (bodyError : Option String) : String :=
  match bodyError with
  | some e => if e = "" then "Sync failed with status " ++ toString status else e
  | none => "Sync failed with status " ++ toString status

/-- `_markItemsAsSynced(itemIds)` applied to the stored history. -/
def markItemsAsSynced (itemIds : List String) (history : List HistoryItem) :
    List HistoryItem :=
  history.map fun item =>
    if itemIds.contains item.id then { item with synced := true } else item

/-- `syncToCloud()`: premium guard, license-key guard, empty-queue
short-circuit, then one `POST` of the whole pending queue.  Returns the
result object, the storage state afterwards, and whether a network request
was issued. -/
def syncToCloud (st : HistState) (outcome : SyncOutcome) :
    SyncResult × HistState × Bool :=
  if !histIsPremium st then
    ({ success := false, syncedCount := 0,
       error := some "Cloud sync requires premium license" }, st, false)
  else
    match histLicenseKey st with
    | none =>
      ({ success := false, syncedCount := 0,
         error := some "No license key found" }, st, false)
    | some _ =>
      let pendingItems := st.pendingSyncItems
      if pendingItems.length = 0 then
        ({ success := true, syncedCount := 0, error := none }, st, false)
      else
        match outcome with
        | .httpError status bodyError =>
          ({ success := false, syncedCount := 0,
             error := some (syncHttpErrorMsg status bodyError) }, st, true)
        | .networkError msg =>
          ({ success := false, syncedCount := 0,
             error := some (if msg = "" then "Network error during sync" else msg) },
           st, true)
        | .respOk ok count err =>
          if ok then
            ({ success := true, syncedCount := count, error := none },
             { st with
                history := markItemsAsSynced (pendingItems.map fun i => i.id) st.history,
                pendingSyncItems := [] }, true)
          else
            ({ success := false, syncedCount := 0, error := err }, st, true)

structure FetchResult where
  success : Bool
  items : Option (List HistoryItem)
  error : Option String
deriving DecidableEq

/-- Outcome of the `fetch` to `GET /api/history`. -/
inductive FetchHistOutcome where
  | networkError (msg : String)
  | httpError (status : Nat) (bodyError : Option String)
  | respOk (success : Bool) (items : List HistoryItem) (error : Option String)
deriving DecidableEq

/-- `errorData.error || "Fetch failed with status N"`. -/
def fetchHttpErrorMsg (status : Nat) (bodyError : Option String) : String :=
  match bodyError with
  | some e => if e = "" then "Fetch failed with status " ++ toString status else e
  | none => "Fetch failed with status " ++ toString status

/-- `_mergeCloudHistory(cloudItems)`: append remote items whose id is not
present locally, then re-sort by timestamp descending (JS `Array.sort` is
stable; `mergeSort` matches). -/
def mergeCloudHistory (cloudItems : List HistoryItem)
    (localHistory : List HistoryItem) : List HistoryItem :=
  let newItems := cloudItems.filter fun c => !(localHistory.any fun l => l.id == c.id)
  if newItems.length = 0 then localHistory
  else (localHistory ++ newItems).mergeSort fun a b => b.timestamp ≤ a.timestamp

/-- `fetchFromCloud()`: premium guard, license-key guard, then one `GET`;
on success the remote items are merged into the stored history. -/
def fetchFromCloud (st : HistState) (outcome : FetchHistOutcome) :
    FetchResult × HistState × Bool :=
  if !histIsPremium st then
    ({ success := false, items := none,
       error := some "Cloud sync requires premium license" }, st, false)
  else
    match histLicenseKey st with
    | none =>
      ({ success := false, items := none,
         error := some "No license key found" }, st, false)
    | some _ =>
      match outcome with
      | .httpError status bodyError =>
        ({ success := false, items := none,
           error := some (fetchHttpErrorMsg status bodyError) }, st, true)
      | .networkError msg =>
        ({ success := false, items := none,
           error := some (if msg = "" then "Network error during fetch" else msg) },
         st, true)
      | .respOk ok items err =>
        if ok then
          ({ success := true, items := some items, error := none },
           { st with history := mergeCloudHistory items st.history }, true)
        else
          ({ success := false, items := none, error := err }, st, true)

/-! ## Helper lemmas -/

theorem addToHistory_premium (i : HistoryItem) (h : List HistoryItem) :
    addToHistory i h true = i :: h := rfl

theorem addToHistory_freemium (i : HistoryItem) (h : List HistoryItem) :
    addToHistory i h false = (i :: h).take FREE_HISTORY_LIMIT := by
  unfold addToHistory
  by_cases hl : (i :: h).length > FREE_HISTORY_LIMIT
  · simp [hl]
  · simp only [Bool.not_false, if_true, hl, if_false]
    exact (List.take_of_length_le (by omega)).symm

theorem take_append_take (a b : List HistoryItem) (n : Nat) :
    (a ++ b.take n).take n = (a ++ b).take n := by
  rw [List.take_append_eq_append_take, List.take_append_eq_append_take, List.take_take,
    Nat.min_eq_left (Nat.sub_le n a.length)]

theorem foldl_addToHistory_freemium (l : List HistoryItem) (acc : List HistoryItem)
    (hacc : acc.length ≤ FREE_HISTORY_LIMIT) :
    l.foldl (fun h i => addToHistory i h false) acc
      = (l.reverse ++ acc).take FREE_HISTORY_LIMIT := by
  induction l generalizing acc with
  | nil =>
    simp only [List.foldl_nil, List.reverse_nil, List.nil_append]
    exact (List.take_of_length_le hacc).symm
  | cons x l ih =>
    rw [List.foldl_cons, addToHistory_freemium,
      ih ((x :: acc).take FREE_HISTORY_LIMIT) (List.length_take_le _ _),
      take_append_take, List.reverse_cons, List.append_assoc, List.cons_append,
      List.nil_append]

theorem foldl_addToHistory_premium (l : List HistoryItem) (acc : List HistoryItem) :
    l.foldl (fun h i => addToHistory i h true) acc = l.reverse ++ acc := by
  induction l generalizing acc with
  | nil => simp
  | cons x l ih =>
    rw [List.foldl_cons, addToHistory_premium, ih, List.reverse_cons, List.append_assoc,
      List.cons_append, List.nil_append]

/-! ## Claim theorems -/

/-- C2: for any sequence of N translations appended under a fixed trust
level, the stored history afterwards is exactly the most recent
min(N, limit) items newest-first — all N (order reversed, newest first)
under premium trust and the last 5 under freemium trust — and under
freemium trust the collection never exceeds 5 items after any single
insert. -/
theorem c2_history_limit (items : List HistoryItem) :
    appendAll items true = items.reverse
    ∧ appendAll items false = items.reverse.take FREE_HISTORY_LIMIT
    ∧ (appendAll items true).length = items.length
    ∧ (appendAll items false).length = min items.length FREE_HISTORY_LIMIT
    ∧ ∀ (i : HistoryItem) (h : List HistoryItem),
        (addToHistory i h false).length ≤ FREE_HISTORY_LIMIT := by
  refine ⟨?_, ?_, ?_, ?_, ?_⟩
  · rw [appendAll, foldl_addToHistory_premium, List.append_nil]
  · rw [appendAll, foldl_addToHistory_freemium _ _ (by simp), List.append_nil]
  · rw [appendAll, foldl_addToHistory_premium, List.append_nil, List.length_reverse]
  · rw [appendAll, foldl_addToHistory_freemium _ _ (by simp), List.append_nil,
      List.length_take, List.length_reverse, Nat.min_comm]
  · intro i h
    rw [addToHistory_freemium]
    exact List.length_take_le _ _

/-- C4: for every stored non-empty license key and stored status whose
`cachedUntil` is strictly later than `now`, `getLicenseStatus` returns the
stored status as-is, leaves storage untouched and issues no network call
(for any remote outcome, hence for any number of repeated calls), and the
comparison is strict: `cachedUntil` equal to `now` counts as expired. -/
theorem c4_cache_hit (stored : StoredData) (st : LicenseStatus) (k : String)
    (outcome : FetchOutcome) (now : Int)
    (hk : normStoredKey stored.licenseKey = some k)
    (hs : stored.licenseStatus = some st) :
    (isCacheValid st now = true →
      getLicenseStatus stored outcome now = (st, stored, false))
    ∧ (st.cachedUntil = some now → isCacheValid st now = false) := by
  constructor
  · intro hv
    simp [getLicenseStatus, getLicenseStatusWith, hk, hs, hv]
  · intro hc
    simp [isCacheValid, hc]

/-- C4 witness: a concrete premium status cached until time 2000 is
returned unchanged at time 1000. -/
theorem c4_cache_hit_witness :
    getLicenseStatus
        { licenseKey := some "KEY",
          licenseStatus := some
            { isPremium := true, licenseKey := some "KEY", email := none,
              expiresAt := none, validatedAt := some 500, cachedUntil := some 2000 } }
        (.networkError "down") 1000
      = ({ isPremium := true, licenseKey := some "KEY", email := none,
           expiresAt := none, validatedAt := some 500, cachedUntil := some 2000 },
         { licenseKey := some "KEY",
           licenseStatus := some
             { isPremium := true, licenseKey := some "KEY", email := none,
               expiresAt := none, validatedAt := some 500, cachedUntil := some 2000 } },
         false) :=
  (c4_cache_hit _ _ "KEY" _ 1000 (by decide) rfl).1 (by decide)

/-- C3 counterexample data: a whitespace-only stored key next to a stored
premium status whose cache is still valid. -/
def c3Now : Int := 1700000000000

def c3Status : LicenseStatus :=
  { isPremium := true, licenseKey := some " ", email := some "user@example.com",
    expiresAt := some (c3Now + 30 * MS_PER_DAY), validatedAt := some (c3Now - MS_PER_DAY),
    cachedUntil := some (c3Now + 1000) }

def c3Stored : StoredData := { licenseKey := some " ", licenseStatus := some c3Status }

/-- C3 counterexample: the claim says a whitespace-only stored key always
yields the freemium default regardless of the stored status; but a
whitespace-only key is truthy, so the cache check runs first and a stored
premium status with `cachedUntil` in the future is returned as-is. -/
theorem c3_counterexample :
    jsTrim " " = ""
    ∧ c3Stored.licenseKey = some " "
    ∧ (getLicenseStatus c3Stored (.respOk true none none) c3Now).1 = c3Status
    ∧ c3Status.isPremium = true := by
  refine ⟨by decide, rfl, ?_, rfl⟩
  decide

/-- C3 (amended): for a stored key that is absent, null or empty,
`getLicenseStatus` returns the freemium default with no network call and
storage untouched, regardless of the stored status.  For a whitespace-only
key no network call is ever made either (the validator fails fast on the
trimmed key), and the freemium default is returned whenever no stored
status with a still-valid cache exists; but a whitespace-only key does not
bypass the cache check (see the counterexample). -/
theorem c3_blank_key_freemium (stored : StoredData) (outcome : FetchOutcome) (now : Int) :
    (normStoredKey stored.licenseKey = none →
      getLicenseStatus stored outcome now = (freemiumStatus now, stored, false))
    ∧ (∀ s, stored.licenseKey = some s → jsTrim s = "" →
        (getLicenseStatus stored outcome now).2.2 = false
        ∧ ((∀ st, stored.licenseStatus = some st → isCacheValid st now = false) →
            (getLicenseStatus stored outcome now).1 = freemiumStatus now)) := by
  constructor
  · intro h
    simp [getLicenseStatus, getLicenseStatusWith, h]
  · intro s hs htrim
    by_cases hempty : s = ""
    · have hnorm : normStoredKey stored.licenseKey = none := by
        rw [hs, hempty]; rfl
      refine ⟨?_, ?_⟩ <;> simp [getLicenseStatus, getLicenseStatusWith, hnorm]
    · have hnorm : normStoredKey stored.licenseKey = some s := by
        rw [hs]; simp [normStoredKey, hempty]
      have hval : validateLicense s outcome
          = ({ valid := false, license := none,
               error := some "License key is required" }, false) := by
        simp [validateLicense, htrim]
      have hrev : revalidate (validateLicenseCall outcome) s stored now
          = (freemiumStatus now, storeLicenseStatus (freemiumStatus now), false) := by
        simp [revalidate, validateLicenseCall, hval]
      cases hls : stored.licenseStatus with
      | none =>
        refine ⟨?_, fun _ => ?_⟩ <;>
          simp [getLicenseStatus, getLicenseStatusWith, hnorm, hls, hrev]
      | some st =>
        by_cases hcv : isCacheValid st now
        · refine ⟨?_, ?_⟩
          · simp [getLicenseStatus, getLicenseStatusWith, hnorm, hls, hcv]
          · intro hno
            exact absurd (hno st rfl) (by simp [hcv])
        · refine ⟨?_, fun _ => ?_⟩ <;>
            simp [getLicenseStatus, getLicenseStatusWith, hnorm, hls, hcv, hrev]

/-- C3 witness: an absent key yields the freemium default, no write, no
network call. -/
theorem c3_blank_key_freemium_witness :
    getLicenseStatus { licenseKey := none, licenseStatus := none }
        (.networkError "x") 5
      = (freemiumStatus 5, { licenseKey := none, licenseStatus := none }, false) :=
  (c3_blank_key_freemium _ _ _).1 rfl

/-- C1 failing input: a stored premium status validated one day ago (well
inside the 7-day grace window) whose cache has just expired, with its
non-empty key still stored, hit by a network failure on revalidation. -/
def c1Now : Int := 1700000000000

def c1Status : LicenseStatus :=
  { isPremium := true, licenseKey := some "PREMIUM-KEY", email := some "user@example.com",
    expiresAt := some (c1Now + 30 * MS_PER_DAY), validatedAt := some (c1Now - MS_PER_DAY),
    cachedUntil := some (c1Now - 1000) }

def c1Stored : StoredData := { licenseKey := some "PREMIUM-KEY", licenseStatus := some c1Status }

/-- C1: the grace period never fires on a real transport failure.
`validateLicense` catches the rejected `fetch` and resolves with
`valid=false`, so `getLicenseStatus` takes the "invalid license" branch:
it returns the freemium default and persists it (erasing the stored key
and premium record) even though the stored status is premium and
`validatedAt` is one day old.  The last conjunct shows the grace branch
would return the stored status unchanged if the awaited validator call
rejected — which is how the repository's own tests (which stub
`validateLicense` to throw) exercise it, and what the claim describes. -/
theorem c1_network_failure_demotes_within_grace :
    isCacheValid c1Status c1Now = false
    ∧ c1Status.isPremium = true
    ∧ isWithinGracePeriod c1Status c1Now = true
    ∧ getLicenseStatus c1Stored (.networkError "Network error") c1Now
        = (freemiumStatus c1Now, storeLicenseStatus (freemiumStatus c1Now), true)
    ∧ getLicenseStatusWith (fun _ => Except.error "Network error") c1Stored c1Now
        = (c1Status, c1Stored, true) := by
  refine ⟨by decide, rfl, by decide, by decide, by decide⟩

/-- C5: `validateLicense` returns a structured `valid=false` result with an
error string on every failure path and never throws across its boundary
(it is a total function of the remote outcome): a blank key fails fast
with "License key is required" and no network call; a non-2xx response
yields `valid=false` with an error string; a transport failure yields
`valid=false` carrying the underlying error message (or the generic
network message when the underlying message is empty). -/
theorem c5_validate_license_total (key : String) (outcome : FetchOutcome) :
    (jsTrim key = "" →
      validateLicense key outcome
        = ({ valid := false, license := none,
             error := some "License key is required" }, false))
    ∧ (∀ status bodyError, jsTrim key ≠ "" → outcome = .httpError status bodyError →
        (validateLicense key outcome).1.valid = false
        ∧ (validateLicense key outcome).1.error
            = some (validationHttpErrorMsg status bodyError)
        ∧ (validateLicense key outcome).2 = true)
    ∧ (∀ msg, jsTrim key ≠ "" → outcome = .networkError msg →
        validateLicense key outcome
          = ({ valid := false, license := none,
               error := some (if msg = "" then "Network error during validation" else msg) },
             true)) := by
  refine ⟨?_, ?_, ?_⟩
  · intro h
    simp [validateLicense, h]
  · intro status bodyError hk ho
    subst ho
    simp [validateLicense, hk, validateFetchBody]
  · intro msg hk ho
    subst ho
    simp [validateLicense, hk, validateFetchBody]

/-- C5 witness: the blank-key and transport-failure clauses at concrete
inputs. -/
theorem c5_validate_license_total_witness :
    validateLicense "" (.networkError "x")
      = ({ valid := false, license := none,
           error := some "License key is required" }, false)
    ∧ validateLicense "KEY" (.networkError "boom")
      = ({ valid := false, license := none, error := some "boom" }, true) :=
  ⟨(c5_validate_license_total "" (.networkError "x")).1 rfl,
   ((c5_validate_license_total "KEY" (.networkError "boom")).2.2 "boom"
      (by decide) rfl).trans (by decide)⟩

/-- C6: for a non-empty pending-sync queue (with premium trust and a stored
license key, so the request is actually issued), a non-2xx response or a
transport failure makes `syncToCloud` report failure with an error string
and zero items synced, leaving the pending-sync queue and the stored
history unchanged (the whole storage state is returned untouched). -/
theorem c6_sync_failure_keeps_queue (st : HistState) (outcome : SyncOutcome)
    (hp : histIsPremium st = true)
    (hk : histLicenseKey st ≠ none)
    (hq : st.pendingSyncItems ≠ []) :
    (∀ status bodyError, outcome = .httpError status bodyError →
      syncToCloud st outcome
        = ({ success := false, syncedCount := 0,
             error := some (syncHttpErrorMsg status bodyError) }, st, true))
    ∧ (∀ msg, outcome = .networkError msg →
      syncToCloud st outcome
        = ({ success := false, syncedCount := 0,
             error := some (if msg = "" then "Network error during sync" else msg) },
           st, true)) := by
  obtain ⟨k, hk'⟩ := Option.ne_none_iff_exists'.mp hk
  have hlen : st.pendingSyncItems.length ≠ 0 := by
    simpa [List.length_eq_zero] using hq
  constructor
  · intro status bodyError ho
    subst ho
    simp [syncToCloud, hp, hk', hlen]
  · intro msg ho
    subst ho
    simp [syncToCloud, hp, hk', hlen]

def c6Item : HistoryItem :=
  { id := "i1", original := "hola", translation := "hello", sourceLang := "es",
    targetLang := "en", engine := "gemini", tone := "neutral", timestamp := 10,
    synced := false }

def c6State : HistState :=
  { history := [c6Item], pendingSyncItems := [c6Item],
    licenseStatus := some
      { isPremium := true, licenseKey := some "K", email := none, expiresAt := none,
        validatedAt := some 0, cachedUntil := some 100 },
    licenseKey := some "K" }

/-- C6 witness: a concrete one-item queue hit by a 500 response. -/
theorem c6_sync_failure_keeps_queue_witness :
    syncToCloud c6State (.httpError 500 none)
      = ({ success := false, syncedCount := 0,
           error := some (syncHttpErrorMsg 500 none) }, c6State, true) :=
  (c6_sync_failure_keeps_queue c6State _ (by decide) (by decide) (by decide)).1
    500 none rfl

/-- C10: under freemium trust both cloud operations fail fast with the
premium-required error, make no network call and leave all storage
unchanged; under premium trust with no stored license key they fail fast
the same way with "No license key found". -/
theorem c10_cloud_guards (st : HistState) (so : SyncOutcome) (fo : FetchHistOutcome) :
    (histIsPremium st = false →
      syncToCloud st so
        = ({ success := false, syncedCount := 0,
             error := some "Cloud sync requires premium license" }, st, false)
      ∧ fetchFromCloud st fo
        = ({ success := false, items := none,
             error := some "Cloud sync requires premium license" }, st, false))
    ∧ (histIsPremium st = true → histLicenseKey st = none →
      syncToCloud st so
        = ({ success := false, syncedCount := 0,
             error := some "No license key found" }, st, false)
      ∧ fetchFromCloud st fo
        = ({ success := false, items := none,
             error := some "No license key found" }, st, false)) := by
  constructor
  · intro h
    exact ⟨by simp [syncToCloud, h], by simp [fetchFromCloud, h]⟩
  · intro hp hk
    exact ⟨by simp [syncToCloud, hp, hk], by simp [fetchFromCloud, hp, hk]⟩

/-- C10 witness input: a freemium storage state (no stored status, no key). -/
def c10State : HistState :=
  { history := [], pendingSyncItems := [], licenseStatus := none, licenseKey := none }

/-- C10 witness: a concrete freemium state (no stored status) is rejected
by both operations. -/
theorem c10_cloud_guards_witness :
    syncToCloud c10State (.networkError "x")
      = ({ success := false, syncedCount := 0,
           error := some "Cloud sync requires premium license" }, c10State, false)
    ∧ fetchFromCloud c10State (.networkError "x")
      = ({ success := false, items := none,
           error := some "Cloud sync requires premium license" }, c10State, false) :=
  (c10_cloud_guards c10State (.networkError "x") (.networkError "x")).1 rfl

/-- C7 counterexample input: a translation whose `tone` is the empty
string. -/
def c7Bad : AddTranslationInput :=
  { original := "hola", translation := "hello", sourceLang := "es", targetLang := "en",
    engine := "gemini", tone := some "" }

/-- C7 counterexample: the claim says the stored item's tone equals the
input's tone exactly whenever a tone was supplied; but `item.tone ||
"neutral"` treats a supplied empty-string tone as falsy, so the stored
tone is "neutral", not the supplied value. -/
theorem c7_counterexample :
    c7Bad.tone = some ""
    ∧ (addTranslation c7Bad "id0" 0 [] false).1.tone = "neutral"
    ∧ ("neutral" : String) ≠ "" := by
  refine ⟨rfl, by decide, by decide⟩

/-- C7 (amended): appending a translation and reading the history yields
the stored item at the head; its `original`, `translation`, `sourceLang`,
`targetLang` and `engine` equal the input exactly; its tone equals the
input tone when that is a non-empty string, and is "neutral" when the tone
was omitted or empty; and it carries the generated id and timestamp and
`synced = false`. -/
theorem c7_round_trip (input : AddTranslationInput) (id : String) (ts : Int)
    (history : List HistoryItem) (premium : Bool) :
    ((addTranslation input id ts history premium).2).head?
        = some (addTranslation input id ts history premium).1
    ∧ (addTranslation input id ts history premium).1.original = input.original
    ∧ (addTranslation input id ts history premium).1.translation = input.translation
    ∧ (addTranslation input id ts history premium).1.sourceLang = input.sourceLang
    ∧ (addTranslation input id ts history premium).1.targetLang = input.targetLang
    ∧ (addTranslation input id ts history premium).1.engine = input.engine
    ∧ (∀ t, input.tone = some t → t ≠ "" →
        (addTranslation input id ts history premium).1.tone = t)
    ∧ ((input.tone = none ∨ input.tone = some "") →
        (addTranslation input id ts history premium).1.tone = "neutral")
    ∧ (addTranslation input id ts history premium).1.id = id
    ∧ (addTranslation input id ts history premium).1.timestamp = ts
    ∧ (addTranslation input id ts history premium).1.synced = false := by
  refine ⟨?_, rfl, rfl, rfl, rfl, rfl, ?_, ?_, rfl, rfl, rfl⟩
  · cases premium
    · rw [show (addTranslation input id ts history false).2
          = (mkHistoryItem input id ts :: history).take FREE_HISTORY_LIMIT from
          addToHistory_freemium _ _]
      simp [FREE_HISTORY_LIMIT, addTranslation]
    · rfl
  · intro t ht hne
    simp [addTranslation, mkHistoryItem, ht, hne]
  · intro h
    rcases h with h | h <;> simp [addTranslation, mkHistoryItem, h]

/-- C7 witness: a concrete input with tone "formal" round-trips exactly and
sits at the head of the stored history. -/
theorem c7_round_trip_witness :
    (addTranslation
        { original := "hola", translation := "hello", sourceLang := "es",
          targetLang := "en", engine := "gemini", tone := some "formal" }
        "id1" 42 [] false).1.tone = "formal" :=
  (c7_round_trip
      { original := "hola", translation := "hello", sourceLang := "es",
        targetLang := "en", engine := "gemini", tone := some "formal" }
      "id1" 42 [] false).2.2.2.2.2.2.1 "formal" rfl (by decide)

/-- C8: for every catalog entry and boolean trust level, the `available`
flag in the returned list equals `trust OR id in the free set`, the
returned lists keep every catalog entry (same length, same ids in the same
order), and `isProviderAvailable` / `isToneAvailable` agree with the same
formula on every returned entry. -/
theorem c8_feature_availability (premium : Bool) :
    (getAvailableProviders premium).length = PROVIDERS.length
    ∧ (getAvailableTones premium).length = TONES.length
    ∧ (getAvailableProviders premium).map (fun e => e.id)
        = PROVIDERS.map (fun p => p.id)
    ∧ (getAvailableTones premium).map (fun e => e.id)
        = TONES.map (fun t => t.id)
    ∧ ((getAvailableProviders premium).all fun e =>
        (e.available == (premium || FREE_PROVIDERS.contains e.id))
          && (e.available == isProviderAvailable e.id premium)) = true
    ∧ ((getAvailableTones premium).all fun e =>
        (e.available == (premium || FREE_TONES.contains e.id))
          && (e.available == isToneAvailable e.id premium)) = true := by
  cases premium <;> exact ⟨rfl, rfl, by decide, by decide, by decide, by decide⟩

/-- C9: `checkExpirationWarning` shows a warning exactly when the status is
premium with `expiresAt` set and `ceil((expiresAt - now) / 1 day)` lies in
[1, 7]; in particular no warning for 0, negative values, values above 7, a
freemium status, or a missing `expiresAt`. -/
theorem c9_expiration_warning (status : Option LicenseStatus) (now : Int) :
    (checkExpirationWarning status now).shouldShow = true
      ↔ ∃ st exp, status = some st ∧ st.isPremium = true ∧ st.expiresAt = some exp
          ∧ 1 ≤ ceilDivInt (exp - now) MS_PER_DAY
          ∧ ceilDivInt (exp - now) MS_PER_DAY ≤ 7 := by
  cases status with
  | none => simp [checkExpirationWarning]
  | some st =>
    cases hp : st.isPremium with
    | false => simp [checkExpirationWarning, hp]
    | true =>
      cases he : st.expiresAt with
      | none => simp [checkExpirationWarning, hp, he]
      | some exp =>
        simp only [checkExpirationWarning, hp, Bool.not_true, Bool.false_eq_true,
          if_false, he, Bool.and_eq_true, decide_eq_true_eq, Option.some.injEq]
        constructor
        · rintro ⟨h7, h0⟩
          exact ⟨st, exp, rfl, hp, he, by omega, h7⟩
        · rintro ⟨st', exp', hst, _, hexp, h1, h7⟩
          cases hst
          rw [he] at hexp
          cases hexp
          exact ⟨h7, by omega⟩

end Zlate
